import Mathlib

/-
Verification of the svox binding layer (src/svox/csrc/svox.cpp) and of the
sparse voxel grid semantics it implies.

Part 1 embeds the validation and dispatch wrapper exactly as written in the
source file: each exported operation runs a sequence of checks (CHECK_CUDA,
CHECK_CONTIGUOUS, TORCH_CHECK) and, when every check passes, invokes the
corresponding external kernel.  A tensor is modelled by the attributes the
checks read: device, contiguity flag, shape, and floating-point flag.  The
result of a wrapper is either an error (the first failing check raises) or a
record of the kernel call made with the given arguments.
-/

inductive Device where
  | cpu : Device
  | cuda : Nat → Device
deriving DecidableEq, Repr

def Device.isCuda : Device → Bool
  | Device.cpu => false
  | Device.cuda _ => true

structure CTensor where
  device : Device
  contiguous : Bool
  shape : List Nat
  floating : Bool
deriving DecidableEq, Repr

def CTensor.dim (t : CTensor) : Nat := t.shape.length

def CTensor.sizeLast (t : CTensor) : Option Nat := t.shape.getLast?

inductive KernelCall where
  | queryVertical (data child indices offset invradius : CTensor)
  | queryVerticalBackward (child indices gradOutput offset invradius : CTensor)
  | assignVertical (data child indices values offset invradius : CTensor)
  | volumeRender (data child origins dirs vdirs offset invradius : CTensor)
      (stepSize stopThresh backgroundBrightness : ℚ)
deriving DecidableEq, Repr

def CHECK_CUDA (name : String) (x : CTensor) (rest : Except String KernelCall) :
    Except String KernelCall :=
  if x.device.isCuda then rest else Except.error (name ++ " must be a CUDA tensor")

def CHECK_CONTIGUOUS (name : String) (x : CTensor) (rest : Except String KernelCall) :
    Except String KernelCall :=
  if x.contiguous then rest else Except.error (name ++ " must be contiguous")

def CHECK_INPUT (name : String) (x : CTensor) (rest : Except String KernelCall) :
    Except String KernelCall :=
  CHECK_CUDA name x (CHECK_CONTIGUOUS name x rest)

def TORCH_CHECK (cond : Bool) (rest : Except String KernelCall) :
    Except String KernelCall :=
  if cond then rest else Except.error "TORCH_CHECK failed"

def query_vertical (data child indices offset invradius : CTensor) :
    Except String KernelCall :=
  CHECK_INPUT "data" data <|
  CHECK_INPUT "child" child <|
  CHECK_INPUT "indices" indices <|
  CHECK_INPUT "offset" offset <|
  CHECK_INPUT "invradius" invradius <|
  TORCH_CHECK (indices.dim == 2) <|
  TORCH_CHECK indices.floating <|
  Except.ok (KernelCall.queryVertical data child indices offset invradius)

def query_vertical_backward (child indices grad_output offset invradius : CTensor) :
    Except String KernelCall :=
  CHECK_INPUT "child" child <|
  CHECK_INPUT "grad_output" grad_output <|
  CHECK_INPUT "indices" indices <|
  CHECK_INPUT "offset" offset <|
  CHECK_INPUT "invradius" invradius <|
  TORCH_CHECK (indices.dim == 2) <|
  TORCH_CHECK indices.floating <|
  Except.ok (KernelCall.queryVerticalBackward child indices grad_output offset invradius)

def assign_vertical (data child indices values offset invradius : CTensor) :
    Except String KernelCall :=
  CHECK_INPUT "data" data <|
  CHECK_INPUT "child" child <|
  CHECK_INPUT "indices" indices <|
  CHECK_INPUT "values" values <|
  CHECK_INPUT "offset" offset <|
  CHECK_INPUT "invradius" invradius <|
  TORCH_CHECK (indices.dim == 2) <|
  TORCH_CHECK (values.dim == 2) <|
  TORCH_CHECK indices.floating <|
  TORCH_CHECK values.floating <|
  Except.ok (KernelCall.assignVertical data child indices values offset invradius)

def sizeLastGE4 (t : CTensor) : Bool :=
  match t.sizeLast with
  | some k => decide (4 ≤ k)
  | none => false

def volume_render (data child origins dirs vdirs offset invradius : CTensor)
    (step_size stop_thresh background_brightness : ℚ) :
    Except String KernelCall :=
  CHECK_INPUT "data" data <|
  CHECK_INPUT "child" child <|
  CHECK_INPUT "origins" origins <|
  CHECK_INPUT "dirs" dirs <|
  CHECK_INPUT "vdirs" vdirs <|
  CHECK_INPUT "offset" offset <|
  CHECK_INPUT "invradius" invradius <|
  TORCH_CHECK (sizeLastGE4 data) <|
  Except.ok (KernelCall.volumeRender data child origins dirs vdirs offset invradius
    step_size stop_thresh background_brightness)

def inputOK (x : CTensor) : Bool := x.device.isCuda && x.contiguous

def validQuery (d c i o r : CTensor) : Bool :=
  inputOK d && inputOK c && inputOK i && inputOK o && inputOK r &&
    (i.dim == 2) && i.floating

def validBackward (c i g o r : CTensor) : Bool :=
  inputOK c && inputOK g && inputOK i && inputOK o && inputOK r &&
    (i.dim == 2) && i.floating

def validAssign (d c i v o r : CTensor) : Bool :=
  inputOK d && inputOK c && inputOK i && inputOK v && inputOK o && inputOK r &&
    (i.dim == 2) && (v.dim == 2) && i.floating && v.floating

def validRender (d c og di vd o r : CTensor) : Bool :=
  inputOK d && inputOK c && inputOK og && inputOK di && inputOK vd &&
    inputOK o && inputOK r && sizeLastGE4 d

theorem CHECK_INPUT_ok_iff (name : String) (x : CTensor)
    (rest : Except String KernelCall) (k : KernelCall) :
    CHECK_INPUT name x rest = Except.ok k ↔
      (inputOK x = true ∧ rest = Except.ok k) := by
  unfold CHECK_INPUT CHECK_CUDA CHECK_CONTIGUOUS inputOK
  cases h1 : x.device.isCuda <;> cases h2 : x.contiguous <;> simp

theorem TORCH_CHECK_ok_iff (cond : Bool) (rest : Except String KernelCall)
    (k : KernelCall) :
    TORCH_CHECK cond rest = Except.ok k ↔ (cond = true ∧ rest = Except.ok k) := by
  unfold TORCH_CHECK
  cases cond <;> simp

theorem query_vertical_ok_iff (d c i o r : CTensor) (k : KernelCall) :
    query_vertical d c i o r = Except.ok k ↔
      (validQuery d c i o r = true ∧ k = KernelCall.queryVertical d c i o r) := by
  simp only [query_vertical, CHECK_INPUT_ok_iff, TORCH_CHECK_ok_iff, validQuery,
    Bool.and_eq_true, Except.ok.injEq]
  tauto

theorem query_vertical_backward_ok_iff (c i g o r : CTensor) (k : KernelCall) :
    query_vertical_backward c i g o r = Except.ok k ↔
      (validBackward c i g o r = true ∧
        k = KernelCall.queryVerticalBackward c i g o r) := by
  simp only [query_vertical_backward, CHECK_INPUT_ok_iff, TORCH_CHECK_ok_iff,
    validBackward, Bool.and_eq_true, Except.ok.injEq]
  tauto

theorem assign_vertical_ok_iff (d c i v o r : CTensor) (k : KernelCall) :
    assign_vertical d c i v o r = Except.ok k ↔
      (validAssign d c i v o r = true ∧
        k = KernelCall.assignVertical d c i v o r) := by
  simp only [assign_vertical, CHECK_INPUT_ok_iff, TORCH_CHECK_ok_iff,
    validAssign, Bool.and_eq_true, Except.ok.injEq]
  tauto

theorem volume_render_ok_iff (d c og di vd o r : CTensor) (s t b : ℚ) (k : KernelCall) :
    volume_render d c og di vd o r s t b = Except.ok k ↔
      (validRender d c og di vd o r = true ∧
        k = KernelCall.volumeRender d c og di vd o r s t b) := by
  simp only [volume_render, CHECK_INPUT_ok_iff, TORCH_CHECK_ok_iff,
    validRender, Bool.and_eq_true, Except.ok.injEq]
  tauto

theorem except_error_or_ok (x : Except String KernelCall) :
    (∃ e, x = Except.error e) ∨ (∃ k, x = Except.ok k) := by
  cases x with
  | error e => exact Or.inl ⟨e, rfl⟩
  | ok k => exact Or.inr ⟨k, rfl⟩

theorem error_iff_of_ok_iff {op : Except String KernelCall} {v : Bool}
    {k0 : KernelCall} (h : ∀ k, op = Except.ok k ↔ (v = true ∧ k = k0)) :
    (∃ e, op = Except.error e) ↔ v = false := by
  rcases except_error_or_ok op with ⟨e, he⟩ | ⟨k, hk⟩
  · constructor
    · intro _
      cases hval : v
      · rfl
      · have := (h k0).mpr ⟨hval, rfl⟩
        rw [this] at he
        exact Except.noConfusion he
    · intro _
      exact ⟨e, he⟩
  · have := (h k).mp hk
    constructor
    · intro ⟨e, he⟩
      rw [hk] at he
      exact Except.noConfusion he
    · intro hv
      rw [this.1] at hv
      exact Bool.noConfusion hv

theorem query_vertical_error_iff (d c i o r : CTensor) :
    (∃ e, query_vertical d c i o r = Except.error e) ↔
      validQuery d c i o r = false :=
  error_iff_of_ok_iff (query_vertical_ok_iff d c i o r)

theorem query_vertical_backward_error_iff (c i g o r : CTensor) :
    (∃ e, query_vertical_backward c i g o r = Except.error e) ↔
      validBackward c i g o r = false :=
  error_iff_of_ok_iff (query_vertical_backward_ok_iff c i g o r)

theorem assign_vertical_error_iff (d c i v o r : CTensor) :
    (∃ e, assign_vertical d c i v o r = Except.error e) ↔
      validAssign d c i v o r = false :=
  error_iff_of_ok_iff (assign_vertical_ok_iff d c i v o r)

theorem volume_render_error_iff (d c og di vd o r : CTensor) (s t b : ℚ) :
    (∃ e, volume_render d c og di vd o r s t b = Except.error e) ↔
      validRender d c og di vd o r = false :=
  error_iff_of_ok_iff (volume_render_ok_iff d c og di vd o r s t b)

def InputOKP (x : CTensor) : Prop := x.device.isCuda = true ∧ x.contiguous = true

instance (x : CTensor) : Decidable (InputOKP x) := by
  unfold InputOKP
  infer_instance

theorem validQuery_iff (d c i o r : CTensor) :
    validQuery d c i o r = true ↔
      (InputOKP d ∧ InputOKP c ∧ InputOKP i ∧ InputOKP o ∧ InputOKP r ∧
        i.dim = 2 ∧ i.floating = true) := by
  simp only [validQuery, inputOK, InputOKP, Bool.and_eq_true, beq_iff_eq]
  tauto

theorem validAssign_iff (d c i v o r : CTensor) :
    validAssign d c i v o r = true ↔
      (InputOKP d ∧ InputOKP c ∧ InputOKP i ∧ InputOKP v ∧ InputOKP o ∧ InputOKP r ∧
        i.dim = 2 ∧ v.dim = 2 ∧ i.floating = true ∧ v.floating = true) := by
  simp only [validAssign, inputOK, InputOKP, Bool.and_eq_true, beq_iff_eq]
  tauto

theorem validRender_iff (d c og di vd o r : CTensor) :
    validRender d c og di vd o r = true ↔
      (InputOKP d ∧ InputOKP c ∧ InputOKP og ∧ InputOKP di ∧ InputOKP vd ∧
        InputOKP o ∧ InputOKP r ∧ sizeLastGE4 d = true) := by
  simp only [validRender, inputOK, InputOKP, Bool.and_eq_true]
  tauto

/-- Claim C1: query_vertical raises an error before any computation if and only if
at least one of data, child, indices, offset, invradius is not a CUDA tensor or is
not contiguous, or indices is not 2-dimensional, or indices is not of floating-point
dtype; for every input satisfying all these conditions it dispatches to the query
kernel without raising. -/
theorem claim_C1 (d c i o r : CTensor) :
    ((∃ e, query_vertical d c i o r = Except.error e) ↔
      ¬ (InputOKP d ∧ InputOKP c ∧ InputOKP i ∧ InputOKP o ∧ InputOKP r ∧
          i.dim = 2 ∧ i.floating = true)) ∧
    ((InputOKP d ∧ InputOKP c ∧ InputOKP i ∧ InputOKP o ∧ InputOKP r ∧
        i.dim = 2 ∧ i.floating = true) ↔
      query_vertical d c i o r = Except.ok (KernelCall.queryVertical d c i o r)) := by
  have hv := validQuery_iff d c i o r
  constructor
  · rw [query_vertical_error_iff, ← hv]
    cases h : validQuery d c i o r <;> simp [h]
  · rw [query_vertical_ok_iff]
    simp only [and_true]
    exact hv.symm

/-- Claim C2: volume_render raises an error before dispatching to the render kernel
whenever the size of the last dimension of data is less than 4, and when that size
is at least 4 the channel-count check passes, so an input whose other checks all
pass is dispatched. -/
theorem claim_C2 (d c og di vd o r : CTensor) (s t b : ℚ) :
    (∀ k, d.sizeLast = some k → k < 4 →
      ∃ e, volume_render d c og di vd o r s t b = Except.error e) ∧
    ((InputOKP d ∧ InputOKP c ∧ InputOKP og ∧ InputOKP di ∧ InputOKP vd ∧
        InputOKP o ∧ InputOKP r) → ∀ k, d.sizeLast = some k → 4 ≤ k →
      volume_render d c og di vd o r s t b =
        Except.ok (KernelCall.volumeRender d c og di vd o r s t b)) := by
  constructor
  · intro k hk hlt
    apply (volume_render_error_iff d c og di vd o r s t b).mpr
    have hsz : sizeLastGE4 d = false := by
      unfold sizeLastGE4
      rw [hk]
      simp
      omega
    simp [validRender, hsz]
  · intro hok k hk hge
    apply (volume_render_ok_iff d c og di vd o r s t b _).mpr
    refine ⟨?_, rfl⟩
    apply (validRender_iff d c og di vd o r).mpr
    refine ⟨hok.1, hok.2.1, hok.2.2.1, hok.2.2.2.1, hok.2.2.2.2.1,
      hok.2.2.2.2.2.1, hok.2.2.2.2.2.2, ?_⟩
    unfold sizeLastGE4
    rw [hk]
    simpa using hge

def tOffset : CTensor := ⟨Device.cuda 0, true, [3], true⟩

def tData : CTensor := ⟨Device.cuda 0, true, [1, 2, 2, 2, 4], true⟩

def tChild : CTensor := ⟨Device.cuda 0, true, [1, 2, 2, 2], false⟩

def tIndices : CTensor := ⟨Device.cuda 0, true, [5, 3], true⟩

def tDirs : CTensor := ⟨Device.cuda 0, true, [5, 3], true⟩

def tValuesBad : CTensor := ⟨Device.cuda 0, true, [5, 4], false⟩

def tOriginsBad : CTensor := ⟨Device.cuda 0, true, [5, 3, 1], false⟩

def tChildCuda1 : CTensor := ⟨Device.cuda 1, true, [1, 2, 2, 2], false⟩

def tCpu : CTensor := ⟨Device.cpu, true, [5, 3], true⟩

/-- Claim C2 witness: a 2-channel grid is rejected; a 4-channel grid with all other
checks passing is dispatched. -/
theorem claim_C2_witness :
    (∃ e, volume_render ⟨Device.cuda 0, true, [1, 2, 2, 2, 2], true⟩ tChild tDirs
      tDirs tDirs tOffset tOffset 1 0 1 = Except.error e) ∧
    volume_render tData tChild tDirs tDirs tDirs tOffset tOffset 1 0 1 =
      Except.ok (KernelCall.volumeRender tData tChild tDirs tDirs tDirs tOffset
        tOffset 1 0 1) := by
  constructor
  · exact (claim_C2 ⟨Device.cuda 0, true, [1, 2, 2, 2, 2], true⟩ tChild tDirs tDirs
      tDirs tOffset tOffset 1 0 1).1 2 (by decide) (by decide)
  · exact (claim_C2 tData tChild tDirs tDirs tDirs tOffset tOffset 1 0 1).2
      (by decide) 4 (by decide) (by decide)

/-- Claim C3 counterexample: volume_render dispatches to the kernel even when
origins is a rank-3 non-floating tensor, so it does not reject origins of wrong
rank or dtype. -/
theorem claim_C3_counterexample :
    tOriginsBad.dim ≠ 2 ∧ tOriginsBad.floating ≠ true ∧
    volume_render tData tChild tOriginsBad tDirs tDirs tOffset tOffset 1 0 1 =
      Except.ok (KernelCall.volumeRender tData tChild tOriginsBad tDirs tDirs
        tOffset tOffset 1 0 1) :=
  ⟨by decide, by decide, rfl⟩

/-- Claim C3 (amended): query_vertical, query_vertical_backward and assign_vertical
raise an error before the kernel is invoked when indices (or, for assign_vertical,
values) has wrong rank or non-floating dtype; volume_render performs no rank or
dtype check on origins, dirs or vdirs and dispatches whenever device, contiguity
and channel-count checks pass. -/
theorem claim_C3_amended (d c i g v o r og di vd : CTensor) (s t b : ℚ) :
    (¬ (i.dim = 2 ∧ i.floating = true) →
      ∃ e, query_vertical d c i o r = Except.error e) ∧
    (¬ (i.dim = 2 ∧ i.floating = true) →
      ∃ e, query_vertical_backward c i g o r = Except.error e) ∧
    (¬ (i.dim = 2 ∧ i.floating = true ∧ v.dim = 2 ∧ v.floating = true) →
      ∃ e, assign_vertical d c i v o r = Except.error e) ∧
    (validRender d c og di vd o r = true →
      volume_render d c og di vd o r s t b =
        Except.ok (KernelCall.volumeRender d c og di vd o r s t b)) := by
  refine ⟨?_, ?_, ?_, ?_⟩
  · intro h
    apply (query_vertical_error_iff d c i o r).mpr
    simp only [validQuery]
    cases hb : (i.dim == 2)
    · simp
    · cases hf : i.floating
      · simp
      · exact absurd ⟨by simpa using hb, hf⟩ h
  · intro h
    apply (query_vertical_backward_error_iff c i g o r).mpr
    simp only [validBackward]
    cases hb : (i.dim == 2)
    · simp
    · cases hf : i.floating
      · simp
      · exact absurd ⟨by simpa using hb, hf⟩ h
  · intro h
    apply (assign_vertical_error_iff d c i v o r).mpr
    simp only [validAssign]
    cases hb : (i.dim == 2)
    · simp
    · cases hb2 : (v.dim == 2)
      · simp
      · cases hf : i.floating
        · simp
        · cases hf2 : v.floating
          · simp
          · exact absurd ⟨by simpa using hb, hf, by simpa using hb2, hf2⟩ h
  · intro h
    exact (volume_render_ok_iff d c og di vd o r s t b _).mpr ⟨h, rfl⟩

/-- Claim C3 witness: concrete rejections for the three vertical operations on a
rank-3 non-floating indices tensor, and a concrete dispatch of volume_render with
that same tensor as origins. -/
theorem claim_C3_witness :
    (∃ e, query_vertical tData tChild tOriginsBad tOffset tOffset = Except.error e) ∧
    (∃ e, query_vertical_backward tChild tOriginsBad tDirs tOffset tOffset =
      Except.error e) ∧
    (∃ e, assign_vertical tData tChild tOriginsBad tValuesBad tOffset tOffset =
      Except.error e) ∧
    volume_render tData tChild tOriginsBad tDirs tDirs tOffset tOffset 1 0 1 =
      Except.ok (KernelCall.volumeRender tData tChild tOriginsBad tDirs tDirs
        tOffset tOffset 1 0 1) := by
  obtain ⟨h1, h2, h3, h4⟩ := claim_C3_amended tData tChild tOriginsBad tDirs
    tValuesBad tOffset tOffset tOriginsBad tDirs tDirs 1 0 1
  exact ⟨h1 (by decide), h2 (by decide), h3 (by decide), h4 (by decide)⟩

/-- Claim C4 counterexample: with data on cuda device 0 and child on cuda device 1,
every check passes and query_vertical dispatches to the kernel, so the wrapper does
not fail fast on arguments residing on different compute devices. -/
theorem claim_C4_counterexample :
    tData.device ≠ tChildCuda1.device ∧
    query_vertical tData tChildCuda1 tIndices tOffset tOffset =
      Except.ok (KernelCall.queryVertical tData tChildCuda1 tIndices tOffset
        tOffset) :=
  ⟨by decide, rfl⟩

/-- Claim C4 (amended): every one of the four operations fails fast, before any
computation, whenever one of its tensor arguments is not a CUDA tensor; no check
compares the devices of two CUDA arguments against each other. -/
theorem claim_C4_amended (d c i g v o r og di vd : CTensor) (s t b : ℚ) :
    ((d.device.isCuda = false ∨ c.device.isCuda = false ∨ i.device.isCuda = false ∨
        o.device.isCuda = false ∨ r.device.isCuda = false) →
      ∃ e, query_vertical d c i o r = Except.error e) ∧
    ((c.device.isCuda = false ∨ i.device.isCuda = false ∨ g.device.isCuda = false ∨
        o.device.isCuda = false ∨ r.device.isCuda = false) →
      ∃ e, query_vertical_backward c i g o r = Except.error e) ∧
    ((d.device.isCuda = false ∨ c.device.isCuda = false ∨ i.device.isCuda = false ∨
        v.device.isCuda = false ∨ o.device.isCuda = false ∨
        r.device.isCuda = false) →
      ∃ e, assign_vertical d c i v o r = Except.error e) ∧
    ((d.device.isCuda = false ∨ c.device.isCuda = false ∨ og.device.isCuda = false ∨
        di.device.isCuda = false ∨ vd.device.isCuda = false ∨
        o.device.isCuda = false ∨ r.device.isCuda = false) →
      ∃ e, volume_render d c og di vd o r s t b = Except.error e) := by
  refine ⟨?_, ?_, ?_, ?_⟩
  · intro h
    apply (query_vertical_error_iff d c i o r).mpr
    rcases h with h | h | h | h | h <;> simp [validQuery, inputOK, h]
  · intro h
    apply (query_vertical_backward_error_iff c i g o r).mpr
    rcases h with h | h | h | h | h <;> simp [validBackward, inputOK, h]
  · intro h
    apply (assign_vertical_error_iff d c i v o r).mpr
    rcases h with h | h | h | h | h | h <;> simp [validAssign, inputOK, h]
  · intro h
    apply (volume_render_error_iff d c og di vd o r s t b).mpr
    rcases h with h | h | h | h | h | h | h <;> simp [validRender, inputOK, h]

/-- Claim C4 witness: each of the four operations raises on a concrete CPU-resident
argument. -/
theorem claim_C4_witness :
    (∃ e, query_vertical tCpu tChild tIndices tOffset tOffset = Except.error e) ∧
    (∃ e, query_vertical_backward tCpu tIndices tDirs tOffset tOffset =
      Except.error e) ∧
    (∃ e, assign_vertical tCpu tChild tIndices tValuesBad tOffset tOffset =
      Except.error e) ∧
    (∃ e, volume_render tCpu tChild tDirs tDirs tDirs tOffset tOffset 1 0 1 =
      Except.error e) := by
  obtain ⟨h1, h2, h3, h4⟩ := claim_C4_amended tCpu tCpu tIndices tDirs tValuesBad
    tOffset tOffset tDirs tDirs tDirs 1 0 1
  refine ⟨?_, ?_, ?_, ?_⟩
  · exact claim_C4_amended tCpu tChild tIndices tDirs tValuesBad tOffset tOffset
      tDirs tDirs tDirs 1 0 1 |>.1 (Or.inl (by decide))
  · exact (claim_C4_amended tData tCpu tIndices tDirs tValuesBad tOffset tOffset
      tDirs tDirs tDirs 1 0 1).2.1 (Or.inl (by decide))
  · exact (claim_C4_amended tCpu tChild tIndices tDirs tValuesBad tOffset tOffset
      tDirs tDirs tDirs 1 0 1).2.2.1 (Or.inl (by decide))
  · exact (claim_C4_amended tCpu tChild tIndices tDirs tValuesBad tOffset tOffset
      tDirs tDirs tDirs 1 0 1).2.2.2 (Or.inl (by decide))

def runAssign (sem : KernelCall → CTensor)
    (data child indices values offset invradius : CTensor) : CTensor :=
  match assign_vertical data child indices values offset invradius with
  | Except.ok k => sem k
  | Except.error _ => data

/-- Claim C5: when assign_vertical fails one of its validation checks (device,
contiguity, rank of indices or values, or dtype of indices or values), it raises an
error, no kernel call is produced, and for any kernel semantics the data buffer is
returned unchanged. -/
theorem claim_C5 (d c i v o r : CTensor)
    (h : validAssign d c i v o r = false) :
    (∃ e, assign_vertical d c i v o r = Except.error e) ∧
    (∀ k, assign_vertical d c i v o r ≠ Except.ok k) ∧
    (∀ sem : KernelCall → CTensor, runAssign sem d c i v o r = d) := by
  obtain ⟨e, he⟩ := (assign_vertical_error_iff d c i v o r).mpr h
  refine ⟨⟨e, he⟩, ?_, ?_⟩
  · intro k hk
    have := ((assign_vertical_ok_iff d c i v o r k).mp hk).1
    rw [this] at h
    exact Bool.noConfusion h
  · intro sem
    unfold runAssign
    rw [he]

/-- Claim C5 witness: a concrete invalid call (non-floating values tensor) raises
and leaves data untouched under every kernel semantics. -/
theorem claim_C5_witness :
    (∃ e, assign_vertical tData tChild tIndices tValuesBad tOffset tOffset =
      Except.error e) ∧
    (∀ k, assign_vertical tData tChild tIndices tValuesBad tOffset tOffset ≠
      Except.ok k) ∧
    (∀ sem : KernelCall → CTensor,
      runAssign sem tData tChild tIndices tValuesBad tOffset tOffset = tData) :=
  claim_C5 tData tChild tIndices tValuesBad tOffset tOffset (by decide)

/-
Part 2 models the sparse voxel grid semantics behind the kernels.  The kernel
bodies are not part of the visible source (only their forward declarations
are), so the definitions below are reconstructed from the specification:
grid storage as M tiles of side N with K channels, the affine coordinate
mapper, root-to-leaf descent with renormalisation, trilinear interpolation
with index clamping at the boundary, nearest-cell scatter assignment, the
adjoint scatter of the backward pass, and a front-to-back compositing ray
marcher.  Rational numbers stand in for the floating-point scalars.
-/

structure Vec3 where
  x : ℚ
  y : ℚ
  z : ℚ
deriving DecidableEq, Repr

/-- Modelled from the spec: the coordinate mapper of the kernels, which converts a
world-space point into grid-local coordinates by the componentwise affine map
g = (x + offset) * invradius.  The kernel code implementing it is not in the
visible source. -/
def coordinateMap (offset invradius p : Vec3) : Vec3 :=
  ⟨(p.x + offset.x) * invradius.x, (p.y + offset.y) * invradius.y,
    (p.z + offset.z) * invradius.z⟩

/-- Modelled from the spec: grid storage, M tiles each an N-cube of cells holding a
K-vector of features (data) and a signed child pointer (child); nonpositive child
means leaf, positive means index of the child tile. -/
structure VoxGrid where
  M : Nat
  N : Nat
  K : Nat
  data : Nat → Nat → Nat → Nat → Nat → ℚ
  child : Nat → Nat → Nat → Nat → Int

def clampIdx (N : Nat) (i : Int) : Nat := min i.toNat (N - 1)

/-- Integer cell coordinate of a point within the current tile,
floor (g * N) clipped to the valid range, as the spec prescribes. -/
def cellOf (N : Nat) (g : Vec3) : Nat × Nat × Nat :=
  (clampIdx N ⌊g.x * (N : ℚ)⌋, clampIdx N ⌊g.y * (N : ℚ)⌋, clampIdx N ⌊g.z * (N : ℚ)⌋)

/-- Renormalised remainder coordinate for descending into the child of cell c. -/
def renorm (N : Nat) (g : Vec3) (c : Nat × Nat × Nat) : Vec3 :=
  ⟨g.x * (N : ℚ) - (c.1 : ℚ), g.y * (N : ℚ) - (c.2.1 : ℚ), g.z * (N : ℚ) - (c.2.2 : ℚ)⟩

/-- Inverse of renorm: embeds a child-local coordinate v of cell c back into the
coordinate frame of the parent tile. -/
def unrenorm (N : Nat) (c : Nat × Nat × Nat) (v : Vec3) : Vec3 :=
  ⟨((c.1 : ℚ) + v.x) / (N : ℚ), ((c.2.1 : ℚ) + v.y) / (N : ℚ),
    ((c.2.2 : ℚ) + v.z) / (N : ℚ)⟩

/-- Tile-local coordinate of the center of cell c. -/
def cellCenter (N : Nat) (c : Nat × Nat × Nat) : Vec3 :=
  unrenorm N c ⟨1/2, 1/2, 1/2⟩

structure Resolved where
  tile : Nat
  c1 : Nat
  c2 : Nat
  c3 : Nat
  loc : Vec3
deriving DecidableEq, Repr

/-- Modelled from the spec: root-to-leaf descent.  At each level the cell within
the current tile is computed; a positive child pointer descends with the
renormalised remainder, otherwise the current tile is final.  The fuel bounds
the depth (a tree of M tiles has depth at most M). -/
def descend (N : Nat) (child : Nat → Nat → Nat → Nat → Int) :
    Nat → Nat → Vec3 → Resolved
  | 0, tile, g =>
      let c := cellOf N g
      ⟨tile, c.1, c.2.1, c.2.2, g⟩
  | fuel + 1, tile, g =>
      let c := cellOf N g
      if 0 < child tile c.1 c.2.1 c.2.2 then
        descend N child fuel (child tile c.1 c.2.1 c.2.2).toNat (renorm N g c)
      else ⟨tile, c.1, c.2.1, c.2.2, g⟩

/-- Global coordinate of the center of the cell that the descent from the given
tile and coordinate resolves to. -/
def targetCenter (N : Nat) (child : Nat → Nat → Nat → Nat → Int) :
    Nat → Nat → Vec3 → Vec3
  | 0, _tile, g => cellCenter N (cellOf N g)
  | fuel + 1, tile, g =>
      let c := cellOf N g
      if 0 < child tile c.1 c.2.1 c.2.2 then
        unrenorm N c
          (targetCenter N child fuel (child tile c.1 c.2.1 c.2.2).toNat (renorm N g c))
      else cellCenter N c

structure Corners where
  b1 : Nat
  b2 : Nat
  b3 : Nat
  h1 : Nat
  h2 : Nat
  h3 : Nat
  t1 : ℚ
  t2 : ℚ
  t3 : ℚ
deriving DecidableEq, Repr

def clamp01 (q : ℚ) : ℚ := max 0 (min 1 q)

/-- One axis of the trilinear setup: base corner index, upper corner index clamped
to the grid boundary (no wraparound), and the fractional offset between them. -/
def axisCorner (N : Nat) (p : ℚ) : Nat × Nat × ℚ :=
  let b := clampIdx N ⌊p⌋
  (b, min (b + 1) (N - 1), clamp01 (p - (b : ℚ)))

/-- Modelled from the spec: the 8 corner cells and trilinear fractions used by the
query engine at tile-local coordinate g, with feature samples placed at cell
centers. -/
def cornersOf (N : Nat) (g : Vec3) : Corners :=
  let a1 := axisCorner N (g.x * (N : ℚ) - 1/2)
  let a2 := axisCorner N (g.y * (N : ℚ) - 1/2)
  let a3 := axisCorner N (g.z * (N : ℚ) - 1/2)
  ⟨a1.1, a2.1, a3.1, a1.2.1, a2.2.1, a3.2.1, a1.2.2, a2.2.2, a3.2.2⟩

/-- Modelled from the spec: trilinear blend of the 8 corner feature vectors of the
final tile, with weights the products of per-axis fractions. -/
def interp (N : Nat) (data : Nat → Nat → Nat → Nat → Nat → ℚ) (tile : Nat)
    (g : Vec3) (ch : Nat) : ℚ :=
  let co := cornersOf N g
  (1 - co.t1) * (1 - co.t2) * (1 - co.t3) * data tile co.b1 co.b2 co.b3 ch
  + (1 - co.t1) * (1 - co.t2) * co.t3 * data tile co.b1 co.b2 co.h3 ch
  + (1 - co.t1) * co.t2 * (1 - co.t3) * data tile co.b1 co.h2 co.b3 ch
  + (1 - co.t1) * co.t2 * co.t3 * data tile co.b1 co.h2 co.h3 ch
  + co.t1 * (1 - co.t2) * (1 - co.t3) * data tile co.h1 co.b2 co.b3 ch
  + co.t1 * (1 - co.t2) * co.t3 * data tile co.h1 co.b2 co.h3 ch
  + co.t1 * co.t2 * (1 - co.t3) * data tile co.h1 co.h2 co.b3 ch
  + co.t1 * co.t2 * co.t3 * data tile co.h1 co.h2 co.h3 ch

/-- The sum of the eight trilinear weights used by interp. -/
def triWeightSum (co : Corners) : ℚ :=
  (1 - co.t1) * (1 - co.t2) * (1 - co.t3)
  + (1 - co.t1) * (1 - co.t2) * co.t3
  + (1 - co.t1) * co.t2 * (1 - co.t3)
  + (1 - co.t1) * co.t2 * co.t3
  + co.t1 * (1 - co.t2) * (1 - co.t3)
  + co.t1 * (1 - co.t2) * co.t3
  + co.t1 * co.t2 * (1 - co.t3)
  + co.t1 * co.t2 * co.t3

/-- Modelled from the spec: forward query of one point, descent then trilinear
interpolation at the resolved tile. -/
def query1 (G : VoxGrid) (g : Vec3) (ch : Nat) : ℚ :=
  let r := descend G.N G.child G.M 0 g
  interp G.N G.data r.tile r.loc ch

/-- Modelled from the spec: scatter assignment of one point, overwriting the
feature vector of the nearest cell of the resolved leaf tile. -/
def assign1 (G : VoxGrid) (g : Vec3) (v : Nat → ℚ) : VoxGrid :=
  let r := descend G.N G.child G.M 0 g
  { G with data := fun tile i j k ch =>
      if tile = r.tile ∧ i = r.c1 ∧ j = r.c2 ∧ k = r.c3 then v ch
      else G.data tile i j k ch }

/-- Modelled from the spec: backward pass of one query point, re-deriving the same
descent and trilinear weights and scatter-accumulating weight * grad into the 8
corner cells.  It reads only the child structure, never the feature data. -/
def backward1 (N : Nat) (child : Nat → Nat → Nat → Nat → Int) (fuel : Nat)
    (g : Vec3) (grad : Nat → ℚ) : Nat → Nat → Nat → Nat → Nat → ℚ :=
  let r := descend N child fuel 0 g
  let co := cornersOf N r.loc
  fun tile i j k ch =>
    (if tile = r.tile ∧ i = co.b1 ∧ j = co.b2 ∧ k = co.b3 then
      (1 - co.t1) * (1 - co.t2) * (1 - co.t3) * grad ch else 0)
    + (if tile = r.tile ∧ i = co.b1 ∧ j = co.b2 ∧ k = co.h3 then
      (1 - co.t1) * (1 - co.t2) * co.t3 * grad ch else 0)
    + (if tile = r.tile ∧ i = co.b1 ∧ j = co.h2 ∧ k = co.b3 then
      (1 - co.t1) * co.t2 * (1 - co.t3) * grad ch else 0)
    + (if tile = r.tile ∧ i = co.b1 ∧ j = co.h2 ∧ k = co.h3 then
      (1 - co.t1) * co.t2 * co.t3 * grad ch else 0)
    + (if tile = r.tile ∧ i = co.h1 ∧ j = co.b2 ∧ k = co.b3 then
      co.t1 * (1 - co.t2) * (1 - co.t3) * grad ch else 0)
    + (if tile = r.tile ∧ i = co.h1 ∧ j = co.b2 ∧ k = co.h3 then
      co.t1 * (1 - co.t2) * co.t3 * grad ch else 0)
    + (if tile = r.tile ∧ i = co.h1 ∧ j = co.h2 ∧ k = co.b3 then
      co.t1 * co.t2 * (1 - co.t3) * grad ch else 0)
    + (if tile = r.tile ∧ i = co.h1 ∧ j = co.h2 ∧ k = co.h3 then
      co.t1 * co.t2 * co.t3 * grad ch else 0)

def rayAt (o d : Vec3) (t : ℚ) : Vec3 :=
  ⟨o.x + t * d.x, o.y + t * d.y, o.z + t * d.z⟩

/-- Slab interval of parameters at which the ray meets one axis of the unit cube;
an axis with zero direction leaves the parameter unconstrained. -/
def axisRange (o d : ℚ) : ℚ × ℚ :=
  if d = 0 then (0, (10 : ℚ) ^ 9)
  else (min ((0 - o) / d) ((1 - o) / d), max ((0 - o) / d) ((1 - o) / d))

def rayRange (o d : Vec3) : ℚ × ℚ :=
  let ax := axisRange o.x d.x
  let ay := axisRange o.y d.y
  let az := axisRange o.z d.z
  (max ax.1 (max ay.1 az.1), min ax.2 (min ay.2 az.2))

def numSteps (o d : Vec3) (step : ℚ) : Nat :=
  let r := rayRange o d
  if step ≤ 0 ∨ r.2 ≤ r.1 then 0 else (Int.ceil ((r.2 - r.1) / step)).toNat

/-- Modelled from the spec: front-to-back compositing march.  act is the density
to per-step alpha conversion (1 - exp(-density * step) in the spec; kept abstract
because exp is not rational).  Marching stops early once transmittance falls
below the stop threshold locals. -/
def marchRay (G : VoxGrid) (act : ℚ → ℚ) (o d : Vec3) (step stop : ℚ) :
    Nat → ℚ → ℚ → (ℚ × ℚ × ℚ) → (ℚ × ℚ × ℚ) × ℚ
  | 0, _t, tr, rgb => (rgb, tr)
  | n + 1, t, tr, rgb =>
      if tr < stop then (rgb, tr)
      else
        let pos := rayAt o d t
        let alpha := act (query1 G pos 0)
        let rgb2 : ℚ × ℚ × ℚ :=
          (rgb.1 + tr * alpha * query1 G pos 1,
            rgb.2.1 + tr * alpha * query1 G pos 2,
            rgb.2.2 + tr * alpha * query1 G pos 3)
        marchRay G act o d step stop n (t + step) (tr * (1 - alpha)) rgb2

/-- Modelled from the spec: render one ray, marching from the entry of the unit
cube and blending the remaining transmittance with the background brightness. -/
def volume_render1 (G : VoxGrid) (act : ℚ → ℚ) (o d _vd : Vec3)
    (step stop bg : ℚ) : ℚ × ℚ × ℚ :=
  let r := rayRange o d
  let res := marchRay G act o d step stop (numSteps o d step) r.1 1 (0, 0, 0)
  (res.1.1 + res.2 * bg, res.1.2.1 + res.2 * bg, res.1.2.2 + res.2 * bg)

/-- Batched forward query as a state transformer on the grid. -/
def queryOp (G : VoxGrid) (pts : List Vec3) : VoxGrid × List (Nat → ℚ) :=
  (G, pts.map (fun g ch => query1 G g ch))

/-- Batched backward pass as a state transformer on the grid; the gradient buffer
is the sum of the per-point scatters. -/
def backwardOp (G : VoxGrid) (pts : List (Vec3 × (Nat → ℚ))) :
    VoxGrid × (Nat → Nat → Nat → Nat → Nat → ℚ) :=
  (G, fun tile i j k ch =>
    (pts.map (fun p => backward1 G.N G.child G.M p.1 p.2 tile i j k ch)).sum)

/-- Batched assignment: each point overwrites its resolved cell in order. -/
def assignOp (G : VoxGrid) (pts : List (Vec3 × (Nat → ℚ))) : VoxGrid :=
  pts.foldl (fun H p => assign1 H p.1 p.2) G

/-- Batched renderer as a state transformer on the grid. -/
def renderOp (G : VoxGrid) (act : ℚ → ℚ) (rays : List (Vec3 × Vec3 × Vec3))
    (step stop bg : ℚ) : VoxGrid × List (ℚ × ℚ × ℚ) :=
  (G, rays.map (fun rr => volume_render1 G act rr.1 rr.2.1 rr.2.2 step stop bg))

theorem assign1_child (G : VoxGrid) (g : Vec3) (v : Nat → ℚ) :
    (assign1 G g v).child = G.child := rfl

theorem assign1_frame (G : VoxGrid) (g : Vec3) (v : Nat → ℚ) :
    (assign1 G g v).M = G.M ∧ (assign1 G g v).N = G.N ∧
      (assign1 G g v).K = G.K ∧ (assign1 G g v).child = G.child :=
  ⟨rfl, rfl, rfl, rfl⟩

theorem assignOp_frame (pts : List (Vec3 × (Nat → ℚ))) (G : VoxGrid) :
    (assignOp G pts).M = G.M ∧ (assignOp G pts).N = G.N ∧
      (assignOp G pts).K = G.K ∧ (assignOp G pts).child = G.child := by
  induction pts generalizing G with
  | nil => exact ⟨rfl, rfl, rfl, rfl⟩
  | cons p tl ih =>
      have h := ih (assign1 G p.1 p.2)
      exact ⟨h.1, h.2.1, h.2.2.1, h.2.2.2⟩

/-- Claim C6: query, backward and render leave both data and child unchanged;
assignment changes at most data, never child (nor the grid dimensions). -/
theorem claim_C6 (G : VoxGrid) (pts : List Vec3)
    (bpts apts : List (Vec3 × (Nat → ℚ))) (act : ℚ → ℚ)
    (rays : List (Vec3 × Vec3 × Vec3)) (step stop bg : ℚ) :
    (queryOp G pts).1 = G ∧
    (backwardOp G bpts).1 = G ∧
    (renderOp G act rays step stop bg).1 = G ∧
    (assignOp G apts).child = G.child ∧
    (assignOp G apts).M = G.M ∧ (assignOp G apts).N = G.N ∧
    (assignOp G apts).K = G.K := by
  have h := assignOp_frame apts G
  exact ⟨rfl, rfl, rfl, h.2.2.2, h.1, h.2.1, h.2.2.1⟩

/-- Claim C7: the coordinate mapper is the pure componentwise affine map
g = (x + offset) * invradius, and it applies no clamping: whenever a component of
invradius is positive the corresponding output component exceeds any bound for
a suitable input. -/
theorem claim_C7 :
    (∀ offset invradius p : Vec3,
      coordinateMap offset invradius p =
        ⟨(p.x + offset.x) * invradius.x, (p.y + offset.y) * invradius.y,
          (p.z + offset.z) * invradius.z⟩) ∧
    (∀ offset invradius : Vec3, ∀ B : ℚ, 0 < invradius.x →
      ∃ p : Vec3, B < (coordinateMap offset invradius p).x) := by
  constructor
  · intro offset invradius p
    rfl
  · intro offset invradius B h
    refine ⟨⟨(B + 1) / invradius.x - offset.x, 0, 0⟩, ?_⟩
    show B < ((B + 1) / invradius.x - offset.x + offset.x) * invradius.x
    rw [sub_add_cancel, div_mul_cancel₀ _ (ne_of_gt h)]
    linarith

/-- Claim C7 witness: the mapper evaluated at a concrete transform and point, and
a concrete input pushing the first component above 100. -/
theorem claim_C7_witness :
    coordinateMap ⟨1, 2, 3⟩ ⟨2, 2, 2⟩ ⟨1, 1, 1⟩ = ⟨4, 6, 8⟩ ∧
    (∃ p : Vec3, 100 < (coordinateMap ⟨1, 2, 3⟩ ⟨2, 2, 2⟩ p).x) := by
  constructor
  · refine (claim_C7.1 ⟨1, 2, 3⟩ ⟨2, 2, 2⟩ ⟨1, 1, 1⟩).trans ?_
    simp only [Vec3.mk.injEq]
    norm_num
  · exact claim_C7.2 ⟨1, 2, 3⟩ ⟨2, 2, 2⟩ 100 (by norm_num)

/-- Claim C9: for every tile-local coordinate, including exact corner, edge and
face coordinates, the eight trilinear weights computed by the query engine sum
to exactly 1. -/
theorem claim_C9 (N : Nat) (g : Vec3) : triWeightSum (cornersOf N g) = 1 := by
  unfold triWeightSum
  ring

/-- Claim C10: the backward pass reads only the child structure; two grids that
agree on M, N and child but hold arbitrarily different data produce identical
gradient buffers. -/
theorem claim_C10 (G1 G2 : VoxGrid) (pts : List (Vec3 × (Nat → ℚ)))
    (hM : G1.M = G2.M) (hN : G1.N = G2.N) (hc : G1.child = G2.child) :
    (backwardOp G1 pts).2 = (backwardOp G2 pts).2 := by
  unfold backwardOp
  rw [hM, hN, hc]

/-- Claim C10 witness: two concrete grids with equal child structure whose data
differ everywhere give the same gradient buffer. -/
theorem claim_C10_witness :
    (backwardOp ⟨1, 2, 4, fun _ _ _ _ _ => 0, fun _ _ _ _ => 0⟩
        [(⟨1/4, 1/4, 1/4⟩, fun _ => 1)]).2 =
    (backwardOp ⟨1, 2, 4, fun _ _ _ _ _ => 17, fun _ _ _ _ => 0⟩
        [(⟨1/4, 1/4, 1/4⟩, fun _ => 1)]).2 :=
  claim_C10 ⟨1, 2, 4, fun _ _ _ _ _ => 0, fun _ _ _ _ => 0⟩
    ⟨1, 2, 4, fun _ _ _ _ _ => 17, fun _ _ _ _ => 0⟩
    [(⟨1/4, 1/4, 1/4⟩, fun _ => 1)] rfl rfl rfl

def inUnit (v : Vec3) : Prop :=
  0 ≤ v.x ∧ v.x < 1 ∧ 0 ≤ v.y ∧ v.y < 1 ∧ 0 ≤ v.z ∧ v.z < 1

theorem clampIdx_le (N : Nat) (i : Int) : clampIdx N i ≤ N - 1 :=
  min_le_right _ _

theorem cellOf_le (N : Nat) (g : Vec3) :
    (cellOf N g).1 ≤ N - 1 ∧ (cellOf N g).2.1 ≤ N - 1 ∧ (cellOf N g).2.2 ≤ N - 1 :=
  ⟨clampIdx_le _ _, clampIdx_le _ _, clampIdx_le _ _⟩

theorem floor_nat_add (c : Nat) (v : ℚ) (h0 : 0 ≤ v) (h1 : v < 1) :
    ⌊(c : ℚ) + v⌋ = (c : ℤ) := by
  rw [Int.floor_eq_iff]
  constructor
  · push_cast
    linarith
  · push_cast
    linarith

theorem clampIdx_nat (N c : Nat) (hc : c ≤ N - 1) : clampIdx N (c : ℤ) = c := by
  unfold clampIdx
  rw [Int.toNat_natCast]
  exact min_eq_left hc

theorem cell_coord_eq (N : Nat) (hN : 1 ≤ N) (c : Nat) (hc : c ≤ N - 1) (v : ℚ)
    (h0 : 0 ≤ v) (h1 : v < 1) :
    clampIdx N ⌊((c : ℚ) + v) / (N : ℚ) * (N : ℚ)⌋ = c := by
  have hNQ : (N : ℚ) ≠ 0 := Nat.cast_ne_zero.mpr (by omega)
  rw [div_mul_cancel₀ _ hNQ, floor_nat_add c v h0 h1, clampIdx_nat N c hc]

theorem cellOf_unrenorm (N : Nat) (hN : 1 ≤ N) (c : Nat × Nat × Nat)
    (hc1 : c.1 ≤ N - 1) (hc2 : c.2.1 ≤ N - 1) (hc3 : c.2.2 ≤ N - 1)
    (v : Vec3) (h : inUnit v) : cellOf N (unrenorm N c v) = c := by
  obtain ⟨u0, u1, u2, u3, u4, u5⟩ := h
  unfold cellOf unrenorm
  refine Prod.ext ?_ (Prod.ext ?_ ?_) <;> simp only []
  · exact cell_coord_eq N hN c.1 hc1 v.x u0 u1
  · exact cell_coord_eq N hN c.2.1 hc2 v.y u2 u3
  · exact cell_coord_eq N hN c.2.2 hc3 v.z u4 u5

theorem renorm_unrenorm (N : Nat) (hN : 1 ≤ N) (c : Nat × Nat × Nat) (v : Vec3) :
    renorm N (unrenorm N c v) c = v := by
  have hNQ : (N : ℚ) ≠ 0 := Nat.cast_ne_zero.mpr (by omega)
  obtain ⟨vx, vy, vz⟩ := v
  simp only [renorm, unrenorm, Vec3.mk.injEq]
  refine ⟨?_, ?_, ?_⟩ <;> rw [div_mul_cancel₀ _ hNQ] <;> ring

theorem unrenorm_mem (N : Nat) (hN : 1 ≤ N) (c : Nat × Nat × Nat)
    (hc1 : c.1 ≤ N - 1) (hc2 : c.2.1 ≤ N - 1) (hc3 : c.2.2 ≤ N - 1)
    (v : Vec3) (h : inUnit v) : inUnit (unrenorm N c v) := by
  obtain ⟨u0, u1, u2, u3, u4, u5⟩ := h
  have hNQ : (0 : ℚ) < (N : ℚ) := by
    exact_mod_cast Nat.lt_of_lt_of_le Nat.zero_lt_one hN
  have hcast : ∀ a : Nat, a ≤ N - 1 → (a : ℚ) ≤ (N : ℚ) - 1 := by
    intro a ha
    have : (a : ℚ) ≤ ((N - 1 : Nat) : ℚ) := by exact_mod_cast ha
    rwa [Nat.cast_sub hN, Nat.cast_one] at this
  refine ⟨?_, ?_, ?_, ?_, ?_, ?_⟩ <;> unfold unrenorm <;> simp only []
  · positivity
  · rw [div_lt_one hNQ]
    have := hcast c.1 hc1
    linarith
  · positivity
  · rw [div_lt_one hNQ]
    have := hcast c.2.1 hc2
    linarith
  · positivity
  · rw [div_lt_one hNQ]
    have := hcast c.2.2 hc3
    linarith

theorem half_unit : inUnit ⟨1/2, 1/2, 1/2⟩ := by
  unfold inUnit
  norm_num

theorem cellCenter_mem (N : Nat) (hN : 1 ≤ N) (c : Nat × Nat × Nat)
    (hc1 : c.1 ≤ N - 1) (hc2 : c.2.1 ≤ N - 1) (hc3 : c.2.2 ≤ N - 1) :
    inUnit (cellCenter N c) :=
  unrenorm_mem N hN c hc1 hc2 hc3 _ half_unit

theorem targetCenter_mem (N : Nat) (child : Nat → Nat → Nat → Nat → Int)
    (hN : 1 ≤ N) : ∀ fuel tile g, inUnit (targetCenter N child fuel tile g) := by
  intro fuel
  induction fuel with
  | zero =>
      intro tile g
      have h := cellOf_le N g
      exact cellCenter_mem N hN _ h.1 h.2.1 h.2.2
  | succ n ih =>
      intro tile g
      have h := cellOf_le N g
      simp only [targetCenter]
      split
      · exact unrenorm_mem N hN _ h.1 h.2.1 h.2.2 _ (ih _ _)
      · exact cellCenter_mem N hN _ h.1 h.2.1 h.2.2

theorem descend_cell_le (N : Nat) (child : Nat → Nat → Nat → Nat → Int) :
    ∀ fuel tile g, (descend N child fuel tile g).c1 ≤ N - 1 ∧
      (descend N child fuel tile g).c2 ≤ N - 1 ∧
      (descend N child fuel tile g).c3 ≤ N - 1 := by
  intro fuel
  induction fuel with
  | zero =>
      intro tile g
      exact cellOf_le N g
  | succ n ih =>
      intro tile g
      simp only [descend]
      split
      · exact ih _ _
      · exact cellOf_le N g

theorem cellOf_cellCenter (N : Nat) (hN : 1 ≤ N) (c : Nat × Nat × Nat)
    (hc1 : c.1 ≤ N - 1) (hc2 : c.2.1 ≤ N - 1) (hc3 : c.2.2 ≤ N - 1) :
    cellOf N (cellCenter N c) = c :=
  cellOf_unrenorm N hN c hc1 hc2 hc3 _ half_unit

theorem descend_targetCenter (N : Nat) (child : Nat → Nat → Nat → Nat → Int)
    (hN : 1 ≤ N) :
    ∀ fuel tile g,
      descend N child fuel tile (targetCenter N child fuel tile g) =
        ⟨(descend N child fuel tile g).tile, (descend N child fuel tile g).c1,
          (descend N child fuel tile g).c2, (descend N child fuel tile g).c3,
          cellCenter N ((descend N child fuel tile g).c1,
            (descend N child fuel tile g).c2,
            (descend N child fuel tile g).c3)⟩ := by
  intro fuel
  induction fuel with
  | zero =>
      intro tile g
      have h := cellOf_le N g
      have hcc := cellOf_cellCenter N hN (cellOf N g) h.1 h.2.1 h.2.2
      simp only [targetCenter, descend]
      rw [hcc]
  | succ n ih =>
      intro tile g
      have h := cellOf_le N g
      by_cases hch :
        0 < child tile (cellOf N g).1 (cellOf N g).2.1 (cellOf N g).2.2
      · have hmem := targetCenter_mem N child hN n
          (child tile (cellOf N g).1 (cellOf N g).2.1 (cellOf N g).2.2).toNat
          (renorm N g (cellOf N g))
        have hcell := cellOf_unrenorm N hN _ h.1 h.2.1 h.2.2 _ hmem
        have htc : targetCenter N child (n + 1) tile g =
            unrenorm N (cellOf N g)
              (targetCenter N child n
                (child tile (cellOf N g).1 (cellOf N g).2.1 (cellOf N g).2.2).toNat
                (renorm N g (cellOf N g))) := by
          simp only [targetCenter]
          rw [if_pos hch]
        have hdesc : descend N child (n + 1) tile g =
            descend N child n
              (child tile (cellOf N g).1 (cellOf N g).2.1 (cellOf N g).2.2).toNat
              (renorm N g (cellOf N g)) := by
          simp only [descend]
          rw [if_pos hch]
        rw [htc, hdesc]
        simp only [descend]
        rw [hcell, if_pos hch, renorm_unrenorm N hN _ _]
        exact ih _ _
      · have hcc := cellOf_cellCenter N hN (cellOf N g) h.1 h.2.1 h.2.2
        have htc : targetCenter N child (n + 1) tile g =
            cellCenter N (cellOf N g) := by
          simp only [targetCenter]
          rw [if_neg hch]
        have hdesc : descend N child (n + 1) tile g =
            ⟨tile, (cellOf N g).1, (cellOf N g).2.1, (cellOf N g).2.2, g⟩ := by
          simp only [descend]
          rw [if_neg hch]
        rw [htc, hdesc]
        simp only [descend]
        rw [hcc, if_neg hch]

theorem axisCorner_at_center (N : Nat) (hN : 1 ≤ N) (c : Nat) (hc : c ≤ N - 1) :
    axisCorner N (((c : ℚ) + 1/2) / (N : ℚ) * (N : ℚ) - 1/2) =
      (c, min (c + 1) (N - 1), 0) := by
  have hNQ : (N : ℚ) ≠ 0 := Nat.cast_ne_zero.mpr (by omega)
  rw [div_mul_cancel₀ _ hNQ]
  have hp : (c : ℚ) + 1/2 - 1/2 = (c : ℚ) := by ring
  rw [hp]
  unfold axisCorner
  rw [Int.floor_natCast, clampIdx_nat N c hc]
  simp [clamp01]

theorem interp_at_center (N : Nat) (hN : 1 ≤ N)
    (data : Nat → Nat → Nat → Nat → Nat → ℚ) (tile : Nat) (c : Nat × Nat × Nat)
    (hc1 : c.1 ≤ N - 1) (hc2 : c.2.1 ≤ N - 1) (hc3 : c.2.2 ≤ N - 1) (ch : Nat) :
    interp N data tile (cellCenter N c) ch = data tile c.1 c.2.1 c.2.2 ch := by
  unfold interp cornersOf cellCenter unrenorm
  simp only []
  rw [axisCorner_at_center N hN c.1 hc1, axisCorner_at_center N hN c.2.1 hc2,
    axisCorner_at_center N hN c.2.2 hc3]
  norm_num

/-- Global center coordinate of the cell that the grid operations resolve the
query coordinate g to. -/
def targetCenterOf (G : VoxGrid) (g : Vec3) : Vec3 :=
  targetCenter G.N G.child G.M 0 g

/-- Claim C8: assigning a value vector at a query coordinate and then querying at
the center of the cell the assignment targeted returns exactly the assigned
value vector. -/
theorem claim_C8 (G : VoxGrid) (g : Vec3) (v : Nat → ℚ) (hN : 1 ≤ G.N) (ch : Nat) :
    query1 (assign1 G g v) (targetCenterOf G g) ch = v ch := by
  unfold query1 assign1 targetCenterOf
  simp only []
  rw [descend_targetCenter G.N G.child hN G.M 0 g]
  obtain ⟨h1, h2, h3⟩ := descend_cell_le G.N G.child G.M 0 g
  rw [interp_at_center G.N hN _ _ _ h1 h2 h3]
  simp

/-- Claim C8 witness: on a concrete one-tile grid of side 2, assigning 5 at a
point and querying the center of the targeted cell returns 5. -/
theorem claim_C8_witness :
    1 ≤ (⟨1, 2, 1, fun _ _ _ _ _ => 0, fun _ _ _ _ => 0⟩ : VoxGrid).N ∧
    query1
      (assign1 ⟨1, 2, 1, fun _ _ _ _ _ => 0, fun _ _ _ _ => 0⟩
        ⟨1/8, 1/8, 1/8⟩ (fun _ => 5))
      (targetCenterOf ⟨1, 2, 1, fun _ _ _ _ _ => 0, fun _ _ _ _ => 0⟩
        ⟨1/8, 1/8, 1/8⟩) 0 = 5 :=
  ⟨by norm_num,
    claim_C8 ⟨1, 2, 1, fun _ _ _ _ _ => 0, fun _ _ _ _ => 0⟩
      ⟨1/8, 1/8, 1/8⟩ (fun _ => 5) (by norm_num) 0⟩
